import Mathlib

/-
Verification of the CometAPI provider adapter: the model-catalog resolver
(`src/api/providers/fetchers/cometapi.ts`), the completion stream normalizer
(`src/api/providers/cometapi.ts`), and the static model table
(`packages/types` CometAPI module).

The TypeScript code is shallowly embedded: JavaScript strings are Lean
`String`s (string operations are re-implemented over `String.data` so that
they evaluate inside the kernel), JSON values are an inductive `Json`,
JavaScript numbers are `ℚ`, `undefined`/absent fields are `Option`, records
built by property assignment and object spread are association lists with
JavaScript object-update semantics, and the fallible network transport is an
explicit `FetchOutcome` / chunk-list argument.  Async generators are embedded
as pure functions from the delivered chunk list to the emitted event list
plus the optionally raised error message.
-/

namespace CometAPI

/-! ## JavaScript string primitives

`String.toLowerCase`, `String.startsWith` and `String.includes` are
re-implemented structurally over the character list so that concrete
instances reduce in the kernel.  The identifiers this code compares are
ASCII, so lower-casing is modelled on the ASCII range. -/

/-- ASCII lower-casing of one character (JS `toLowerCase` restricted to the
ASCII identifiers this adapter compares). -/
def asciiLowerChar (c : Char) : Char :=
  if 65 ≤ c.toNat ∧ c.toNat ≤ 90 then Char.ofNat (c.toNat + 32) else c

/-- JS `s.toLowerCase()`. -/
def jsToLowerCase (s : String) : String :=
  ⟨s.data.map asciiLowerChar⟩

/-- Does the character list `l` start with the character list `p`? -/
def listStartsWith : List Char → List Char → Bool
  | _, [] => true
  | [], _ :: _ => false
  | c :: cs, p :: ps => c == p && listStartsWith cs ps

/-- Does the character list `l` contain `p` as a contiguous sublist? -/
def listContainsSub : List Char → List Char → Bool
  | [], p => listStartsWith [] p
  | c :: cs, p => listStartsWith (c :: cs) p || listContainsSub cs p

/-- JS `s.startsWith(p)`. -/
def jsStartsWith (s p : String) : Bool :=
  listStartsWith s.data p.data

/-- JS `s.includes(p)`. -/
def jsIncludes (s p : String) : Bool :=
  listContainsSub s.data p.data

/-! ## Data model: `ModelInfo` and the static table -/

/-- Embedding of the `ModelInfo` shape used by the adapter (the fields the
CometAPI modules read and write).  Absent optional fields are `none`. -/
structure ModelInfo where
  maxTokens : Option Int := none
  contextWindow : Int
  supportsImages : Bool
  supportsPromptCache : Bool
  inputPrice : Option ℚ := none
  outputPrice : Option ℚ := none
  description : String
deriving Repr, DecidableEq

/-- Records built by JavaScript property assignment / object spread are
embedded as association lists with unique keys. -/
abbrev ModelRec := List (String × ModelInfo)

/-- Embedding of `cometApiDefaultModelId` from the static table module. -/
def cometApiDefaultModelId : String := "claude-3-5-sonnet-20241022"

/-- Embedding of the curated static table `cometApiModels`
(the `packages/types` CometAPI module). -/
def cometApiModels : ModelRec :=
  [ ("claude-3-5-sonnet-20241022",
     { maxTokens := some 8192
       contextWindow := 200000
       supportsImages := true
       supportsPromptCache := false
       inputPrice := some 3
       outputPrice := some 15
       description := "Anthropic\x27s Claude 3.5 Sonnet via CometAPI" }),
    ("claude-3-5-haiku-20241022",
     { maxTokens := some 8192
       contextWindow := 200000
       supportsImages := true
       supportsPromptCache := false
       inputPrice := some 1
       outputPrice := some 5
       description := "Anthropic\x27s Claude 3.5 Haiku via CometAPI" }) ]

/-! ## JSON values -/

/-- JSON values delivered by the remote catalog endpoint (and nested raw
error payloads).  JavaScript numbers are modelled as `ℚ`. -/
inductive Json where
  | null
  | bool (b : Bool)
  | num (q : ℚ)
  | str (s : String)
  | arr (elems : List Json)
  | obj (fields : List (String × Json))
deriving Repr

/-- JS truthiness of a JSON value. -/
def jsTruthy : Json → Bool
  | .null => false
  | .bool b => b
  | .num q => if q = 0 then false else true
  | .str s => !(s == "")
  | .arr _ => true
  | .obj _ => true

/-- Concatenate a list of strings with commas (JS `Array.prototype.join`). -/
def joinComma : List String → String
  | [] => ""
  | [s] => s
  | s :: rest => s ++ "," ++ joinComma rest

mutual
/-- JS string coercion of a JSON value, as used by template-literal
interpolation: objects render as `[object Object]`, arrays join their
elements with commas (with `null` rendering empty inside an array).
Decimal rendering of non-integral numbers is elided to `num/den`. -/
def jsDisplay : Json → String
  | .null => "null"
  | .bool true => "true"
  | .bool false => "false"
  | .num q => if q.den = 1 then toString q.num else toString q.num ++ "/" ++ toString q.den
  | .str s => s
  | .arr elems => joinComma (jsDisplayElems elems)
  | .obj _ => "[object Object]"

/-- Rendering of array elements for `jsDisplay` (JS joins with `null` and
`undefined` shown as empty strings). -/
def jsDisplayElems : List Json → List String
  | [] => []
  | .null :: rest => "" :: jsDisplayElems rest
  | x :: rest => jsDisplay x :: jsDisplayElems rest
end

/-! ## The zod response schema

Embedding of `cometApiModelsResponseSchema` from
`src/api/providers/fetchers/cometapi.ts`.  `z.object` requires a JSON
object, validates the listed fields and ignores unknown keys;
`.optional()` accepts an absent field but rejects `null`; `.nullish()`
accepts both absent and `null`. -/

/-- Property access on a JSON object's field list. -/
def getField (fields : List (String × Json)) (k : String) : Option Json :=
  fields.lookup k

/-- zod `z.string()`. -/
def zString : Json → Option String
  | .str s => some s
  | _ => none

/-- zod `z.number()`. -/
def zNumber : Json → Option ℚ
  | .num q => some q
  | _ => none

/-- zod `z.boolean()`. -/
def zBool : Json → Option Bool
  | .bool b => some b
  | _ => none

/-- zod `.optional()` field: absent is accepted, a present value (including
`null`) must satisfy the inner validator. -/
def zOptionalField (p : Json → Option α) (fields : List (String × Json)) (k : String) :
    Option (Option α) :=
  match getField fields k with
  | none => some none
  | some v => (p v).map some

/-- zod `.nullish()` field: absent and `null` are accepted, any other
present value must satisfy the inner validator. -/
def zNullishField (p : Json → Option α) (fields : List (String × Json)) (k : String) :
    Option (Option α) :=
  match getField fields k with
  | none => some none
  | some .null => some none
  | some v => (p v).map some

/-- Validated `architecture` sub-object of a remote model descriptor. -/
structure RawArchitecture where
  modality : Option String
  tokenizer : Option String
deriving Repr, DecidableEq

/-- Validated `pricing` sub-object of a remote model descriptor. -/
structure RawPricing where
  prompt : Option String
  completion : Option String
deriving Repr, DecidableEq

/-- Validated remote model descriptor (`cometApiModelSchema`). -/
structure RawModel where
  id : String
  object : Option String
  created : Option ℚ
  owned_by : Option String
  name : Option String
  description : Option String
  context_length : Option ℚ
  max_tokens : Option ℚ
  architecture : Option RawArchitecture
  pricing : Option RawPricing
deriving Repr, DecidableEq

/-- Validator for the `architecture` sub-schema. -/
def parseArchitecture : Json → Option RawArchitecture
  | .obj fs => do
    let modality ← zNullishField zString fs "modality"
    let tokenizer ← zNullishField zString fs "tokenizer"
    some { modality := modality, tokenizer := tokenizer }
  | _ => none

/-- Validator for the `pricing` sub-schema. -/
def parsePricing : Json → Option RawPricing
  | .obj fs => do
    let p ← zNullishField zString fs "prompt"
    let c ← zNullishField zString fs "completion"
    some { prompt := p, completion := c }
  | _ => none

/-- Validator for one model descriptor (`cometApiModelSchema.safeParse`). -/
def parseRawModel : Json → Option RawModel
  | .obj fs => do
    let id ← (getField fs "id").bind zString
    let object ← zOptionalField zString fs "object"
    let created ← zOptionalField zNumber fs "created"
    let owned_by ← zOptionalField zString fs "owned_by"
    let name ← zOptionalField zString fs "name"
    let description ← zOptionalField zString fs "description"
    let context_length ← zOptionalField zNumber fs "context_length"
    let max_tokens ← zOptionalField zNumber fs "max_tokens"
    let architecture ← zOptionalField parseArchitecture fs "architecture"
    let pricing ← zOptionalField parsePricing fs "pricing"
    some { id := id, object := object, created := created, owned_by := owned_by,
           name := name, description := description, context_length := context_length,
           max_tokens := max_tokens, architecture := architecture, pricing := pricing }
  | _ => none

/-- Validated whole response body (`cometApiModelsResponseSchema`). -/
structure ModelsResponse where
  data : List RawModel
  success : Option Bool
deriving Repr, DecidableEq

/-- Validator for the whole response body
(`cometApiModelsResponseSchema.safeParse`): requires a `data` field holding
an array of valid model descriptors; `success` is an optional boolean. -/
def parseModelsResponse : Json → Option ModelsResponse
  | .obj fs => do
    let d ← (getField fs "data").bind fun v =>
      match v with
      | .arr xs => xs.mapM parseRawModel
      | _ => none
    let success ← zOptionalField zBool fs "success"
    some { data := d, success := success }
  | _ => none

/-! ## Media-type filter and heuristic synthesis -/

/-- Embedding of `imageGenPatterns` from `isTextGenerationModel`. -/
def imageGenPatterns : List String :=
  ["dall-e", "dalle", "midjourney", "stable-diffusion", "sd-", "flux-",
   "playground-v", "ideogram", "recraft", "black-forest-labs"]

/-- Embedding of the filtered leading patterns (`prefixPatterns` in the
source) from `isTextGenerationModel`. -/
def startPatterns : List String :=
  ["tts", "mj_", "veo", "runway", "suno", "kling_"]

/-- Embedding of `isTextGenerationModel`: lower-case the identifier, reject
it when it starts with one of `startPatterns` or contains one of
`imageGenPatterns`. -/
def isTextGenerationModel (modelId : String) : Bool :=
  let id := jsToLowerCase modelId
  let hasFilteredStart := startPatterns.any fun p => jsStartsWith id p
  let hasFilteredPattern := imageGenPatterns.any fun p => jsIncludes id p
  !hasFilteredStart && !hasFilteredPattern

/-- Parse a list of ASCII digits into a natural number; `none` on the empty
list or a non-digit. -/
def parseDigits (cs : List Char) : Option Nat :=
  match cs with
  | [] => none
  | _ =>
    cs.foldl (fun acc c =>
      acc.bind fun n =>
        if 48 ≤ c.toNat ∧ c.toNat ≤ 57 then some (n * 10 + (c.toNat - 48)) else none)
      (some 0)

/-- Modelled from the spec: the numeric-price parser collaborator
`parseApiPrice` (`src/shared/cost`, not part of this repository):
`string|undefined -> number|undefined`, never throws, returning an absent
value when the source field is missing or unparsable.  Decimal strings are
parsed as integer part, optional dot, fractional part. -/
def parseApiPrice (s : Option String) : Option ℚ :=
  s.bind fun str =>
    let intChars := str.data.takeWhile fun c => c ≠ '.'
    match str.data.dropWhile fun c => c ≠ '.' with
    | [] => (parseDigits intChars).map fun n => (n : ℚ)
    | _ :: fracChars =>
      (parseDigits intChars).bind fun n =>
        (parseDigits fracChars).map fun f =>
          (n : ℚ) + (f : ℚ) / ((10 : ℚ) ^ fracChars.length)

/-- Embedding of the per-descriptor synthesis in `getCometAPIModels`
(lines 119-210 of the fetcher): smart defaults
`contextWindow = 8192`, `supportsImages = false`, `description = id`,
overridden by the ordered substring-heuristic chain on the lower-cased
identifier, with `supportsPromptCache` unconditionally false and prices
taken from the descriptor's pricing strings. -/
def synthesizeModelInfo (m : RawModel) : ModelInfo :=
  let modelId := jsToLowerCase m.id
  let defaults : Int × Bool × String := (8192, false, m.id)
  let classified : Int × Bool × String :=
    if jsIncludes modelId "claude" then
      if jsIncludes modelId "3-5-sonnet" then
        (200000, true, "Claude 3.5 Sonnet - Advanced reasoning and code generation")
      else if jsIncludes modelId "3-5-haiku" then
        (200000, true, "Claude 3.5 Haiku - Fast and efficient responses")
      else if jsIncludes modelId "claude-3" then
        (200000, true, "Claude 3 series - Advanced AI assistant")
      else defaults
    else if jsIncludes modelId "gpt-4" then
      (128000, jsIncludes modelId "vision" || jsIncludes modelId "4o",
       if jsIncludes modelId "4o" then "GPT-4o - Optimized for speed and cost"
       else "GPT-4 - Advanced language model")
    else if jsIncludes modelId "gpt-3.5" then
      (16385, false, "GPT-3.5 Turbo - Fast and capable")
    else if jsIncludes modelId "qwen" then
      ((if jsIncludes modelId "72b" || jsIncludes modelId "110b" then 32768
        else if jsIncludes modelId "32b" then 32768
        else 32768),
       false,
       "Qwen " ++ (if jsIncludes modelId "coder" then "Coder" else "")
         ++ " - Alibaba\x27s language model")
    else if jsIncludes modelId "abab" then
      (245760, false, "Minimax Abab - Chinese-optimized language model")
    else if jsIncludes modelId "gemini" then
      ((if jsIncludes modelId "pro" then 2097152 else 1048576), true,
       "Google Gemini - Multimodal AI model")
    else if jsIncludes modelId "llama" then
      ((if jsIncludes modelId "3.1" then 131072 else 8192), false,
       "Meta Llama - Open source language model")
    else if jsIncludes modelId "mistral" then
      (32768, false, "Mistral AI - European AI excellence")
    else if jsIncludes modelId "yi-" then
      (200000, false, "01.AI Yi - Bilingual AI model")
    else if jsIncludes modelId "deepseek" then
      (64000, false, "DeepSeek - Code and reasoning specialist")
    else defaults
  { maxTokens := none
    contextWindow := classified.1
    supportsImages := classified.2.1
    supportsPromptCache := false
    inputPrice := parseApiPrice (m.pricing.bind fun p => p.prompt)
    outputPrice := parseApiPrice (m.pricing.bind fun p => p.completion)
    description := classified.2.2 }

/-! ## Record construction and merge -/

/-- JavaScript object property assignment `r[k] = v`: replace in place when
the key is present, append otherwise. -/
def recordSet (r : ModelRec) (k : String) (v : ModelInfo) : ModelRec :=
  if r.any fun p => p.1 = k then
    r.map fun p => if p.1 = k then (k, v) else p
  else r ++ [(k, v)]

/-- JavaScript object spread `{...a, ...b}`: start from `a`, assign every
entry of `b` in order. -/
def recordSpread (a b : ModelRec) : ModelRec :=
  b.foldl (fun acc p => recordSet acc p.1 p.2) a

/-- Keys of a record. -/
def recordKeys (r : ModelRec) : List String :=
  r.map Prod.fst

/-- Embedding of the descriptor loop of `getCometAPIModels`: skip
descriptors rejected by `isTextGenerationModel`, assign the synthesized
entry for the rest (later duplicates overwrite earlier ones). -/
def buildRemoteModels (descriptors : List RawModel) : ModelRec :=
  descriptors.foldl
    (fun acc m =>
      if isTextGenerationModel m.id then recordSet acc m.id (synthesizeModelInfo m)
      else acc)
    []

/-! ## The catalog resolver -/

/-- Outcome of the remote `GET {baseUrl}/models` call, the transport being
an external collaborator: either a transport-level failure (network error or
timeout, both rejected promises) or a delivered response with its `ok` flag
and JSON body. -/
inductive FetchOutcome where
  | networkError
  | response (ok : Bool) (body : Json)

/-- JS truthiness of the optional API key (`!apiKey` guard: absent and
empty-string keys are both falsy). -/
def jsTruthyKey : Option String → Bool
  | none => false
  | some s => !(s == "")

/-- Embedding of `getCometAPIModels`: no (truthy) API key returns the static
table immediately; a transport failure, a non-2xx status or a body rejected
by the schema falls back to the static table; otherwise the synthesized
remote entries are spread over the static table (remote wins on key
conflicts).  The function is total, so it never raises. -/
def getCometAPIModels (apiKey : Option String) (outcome : FetchOutcome) : ModelRec :=
  if !jsTruthyKey apiKey then cometApiModels
  else
    match outcome with
    | .networkError => cometApiModels
    | .response ok body =>
      if !ok then cometApiModels
      else
        match parseModelsResponse body with
        | none => cometApiModels
        | some parsed => recordSpread cometApiModels (buildRemoteModels parsed.data)

/-- The failure class of `getCometAPIModels`: transport error, non-2xx
status, or a body rejected by the schema. -/
def fetchFailed : FetchOutcome → Bool
  | .networkError => true
  | .response ok body => !ok || (parseModelsResponse body).isNone

/-! ## Completion stream normalizer: wire data -/

/-- In-band error object delivered inside a chunk or response body
(`{ message?: string; code?: number }`). -/
structure ErrObj where
  message : Option String
  code : Option Int
deriving Repr, DecidableEq

/-- Nested `completion_tokens_details` of a usage record. -/
structure CompletionTokensDetails where
  reasoning_tokens : Option Int
deriving Repr, DecidableEq

/-- Nested `prompt_tokens_details` of a usage record. -/
structure PromptTokensDetails where
  cached_tokens : Option Int
deriving Repr, DecidableEq

/-- Nested `cost_details` of a usage record. -/
structure CostDetails where
  upstream_inference_cost : Option ℚ
deriving Repr, DecidableEq

/-- Embedding of the `CompletionUsage` interface of
`src/api/providers/cometapi.ts`. -/
structure CompletionUsage where
  completion_tokens : Option Int := none
  completion_tokens_details : Option CompletionTokensDetails := none
  prompt_tokens : Option Int := none
  prompt_tokens_details : Option PromptTokensDetails := none
  total_tokens : Option Int := none
  cost : Option ℚ := none
  is_byok : Option Bool := none
  cost_details : Option CostDetails := none
deriving Repr, DecidableEq

/-- Delta carried by a streamed choice. -/
structure Delta where
  content : Option String
deriving Repr, DecidableEq

/-- One choice of a streamed chunk. -/
structure Choice where
  delta : Option Delta
deriving Repr, DecidableEq

/-- One streamed chunk as the loop observes it: an optional in-band `error`
property (`some` models `"error" in chunk`), the `choices` array and the
optional `usage` payload. -/
structure Chunk where
  error : Option ErrObj := none
  choices : List Choice := []
  usage : Option CompletionUsage := none
deriving Repr, DecidableEq

/-- Embedding of `ApiStreamChunk`, restricted to the two variants this
provider emits: text fragments and the terminal usage record. -/
inductive ApiStreamChunk where
  | text (text : String)
  | usage (inputTokens : Int) (outputTokens : Int)
          (cacheReadTokens : Option Int) (reasoningTokens : Option Int)
          (totalCost : ℚ)
deriving Repr, DecidableEq

/-! ## Cost computation and usage event -/

/-- JS `x || d` on an optional number: absent and `0` (the falsy number)
both fall back to `d`. -/
def jsNumOr (o : Option ℚ) (d : ℚ) : ℚ :=
  match o with
  | none => d
  | some q => if q = 0 then d else q

/-- JS `x || d` on an optional integer count. -/
def jsIntOr (o : Option Int) (d : Int) : Int :=
  match o with
  | none => d
  | some n => if n = 0 then d else n

/-- Embedding of `CometAPIHandler.getTotalCost`:
`(lastUsage.cost_details?.upstream_inference_cost || 0) + (lastUsage.cost || 0)`. -/
def getTotalCost (lastUsage : CompletionUsage) : ℚ :=
  jsNumOr (lastUsage.cost_details.bind fun d => d.upstream_inference_cost) 0
    + jsNumOr lastUsage.cost 0

/-- The terminal usage event built at stream end from the last captured
usage record. -/
def usageChunk (u : CompletionUsage) : ApiStreamChunk :=
  .usage (jsIntOr u.prompt_tokens 0) (jsIntOr u.completion_tokens 0)
    (u.prompt_tokens_details.bind fun d => d.cached_tokens)
    (u.completion_tokens_details.bind fun d => d.reasoning_tokens)
    (getTotalCost u)

/-! ## The human-readable-message transform -/

/-- A caught JavaScript error value as `makeCometAPIErrorReadable` observes
it: its `code` and `message` properties, the nested
`error.metadata?.raw` payload after `JSON.parse` (`rawParsed = none` models
every swallowed failure of that chain: a missing link throwing a
`TypeError`, or `JSON.parse` itself throwing), and its template-literal
string coercion `asString` used when `message` is falsy. -/
structure JsError where
  code : Option Int := none
  message : Option String := none
  rawParsed : Option Json := none
  asString : String := "[object Object]"

/-- JS `error?.message || error` as interpolated into the templates. -/
def jsMessageOr (e : JsError) : String :=
  match e.message with
  | some m => if m == "" then e.asString else m
  | none => e.asString

/-- JS property read `d.retryDelay` on an array element: `null` elements
throw (modelled as `none`), objects yield the field, other values yield
`undefined` (modelled as `some none`). -/
def retryDelayField : Json → Option (Option Json)
  | .null => none
  | .obj fs => some (getField fs "retryDelay")
  | _ => some none

/-- Truthiness of a possibly-`undefined` value (the `.filter((r) => r)`
step). -/
def jsTruthyOpt : Option Json → Bool
  | none => false
  | some v => jsTruthy v

/-- Embedding of
`parsedJson?.error?.details.map((detail) => detail.retryDelay).filter((r) => r)[0]`
together with the surrounding `try`: `none` covers every path that yields a
falsy `retryAfter` or throws into the swallowing `catch` (short-circuited
optional chain, `details` missing or not an array, a `null` element, no
truthy delay). -/
def extractRetryDelay : Option Json → Option String
  | none => none
  | some (.obj fs) =>
    match getField fs "error" with
    | some (.obj efs) =>
      match getField efs "details" with
      | some (.arr ds) =>
        match ds.mapM retryDelayField with
        | none => none
        | some delays =>
          match (delays.filter jsTruthyOpt).head? with
          | some (some v) => some (jsDisplay v)
          | _ => none
      | _ => none
    | _ => none
  | some _ => none

/-- Embedding of `makeCometAPIErrorReadable`.  The function is total: every
parse or property-access failure inside the source's `try` block is already
collapsed into `rawParsed`/`extractRetryDelay`, so nothing raises. -/
def makeCometAPIErrorReadable (error : JsError) : String :=
  if error.code ≠ some 429 ∧ error.code ≠ some 418 then
    "CometAPI Error: " ++ jsMessageOr error
  else
    match extractRetryDelay error.rawParsed with
    | some retryAfter => "Rate limit exceeded, try again in " ++ retryAfter ++ "."
    | none => "Rate limit exceeded, try again later.\n" ++ jsMessageOr error

/-! ## The streaming loop -/

/-- Template-literal interpolation of an optional number
(`${error?.code}`). -/
def jsTemplateInt : Option Int → String
  | none => "undefined"
  | some n => toString n

/-- Template-literal interpolation of an optional string
(`${error?.message}`). -/
def jsTemplateStr : Option String → String
  | none => "undefined"
  | some s => s

/-- The message of the `Error` thrown on an in-band error chunk:
`` `CometAPI Error ${error?.code}: ${error?.message}` ``. -/
def inBandErrorMessage (e : ErrObj) : String :=
  "CometAPI Error " ++ jsTemplateInt e.code ++ ": " ++ jsTemplateStr e.message

/-- The `Error` object produced by `new Error(msg)`: no `code` property, the
given message, and `String(error)` rendering `"Error: " ++ msg`. -/
def jsErrorOfThrown (msg : String) : JsError :=
  { code := none, message := some msg, rawParsed := none, asString := "Error: " ++ msg }

/-- `chunk.choices[0]?.delta` followed by `delta?.content`. -/
def chunkTextDelta (c : Chunk) : Option String :=
  match c.choices.head? with
  | some ch => ch.delta.bind fun d => d.content
  | none => none

/-- Result of the `for await` loop of `createMessage` over the delivered
chunks: the events yielded so far, the last captured usage record, and the
in-band error object when one halted the loop. -/
structure StreamRun where
  events : List ApiStreamChunk
  lastUsage : Option CompletionUsage
  inBandError : Option ErrObj
deriving Repr, DecidableEq

/-- The chunk loop of `createMessage`: an in-band error halts immediately
(nothing more is yielded); otherwise a truthy text delta is yielded and a
usage payload overwrites the last captured record. -/
def streamLoop : List Chunk → Option CompletionUsage → StreamRun
  | [], last => { events := [], lastUsage := last, inBandError := none }
  | c :: rest, last =>
    match c.error with
    | some e => { events := [], lastUsage := last, inBandError := some e }
    | none =>
      let textEvents :=
        match chunkTextDelta c with
        | some s => if s == "" then [] else [ApiStreamChunk.text s]
        | none => []
      let next := streamLoop rest (match c.usage with | some u => some u | none => last)
      { events := textEvents ++ next.events
        lastUsage := next.lastUsage
        inBandError := next.inBandError }

/-- Embedding of `CometAPIHandler.createMessage` as a function of the
delivered chunk list: the emitted event sequence paired with the raised
error message, if any.  An in-band error is thrown inside the iteration
`try`, re-caught by the surrounding `catch`, passed through
`makeCometAPIErrorReadable` and re-raised; on normal exhaustion one terminal
usage event is emitted when a usage record was captured. -/
def createMessage (chunks : List Chunk) : List ApiStreamChunk × Option String :=
  let run := streamLoop chunks none
  match run.inBandError with
  | some e =>
    (run.events,
     some (makeCometAPIErrorReadable (jsErrorOfThrown (inBandErrorMessage e))))
  | none =>
    match run.lastUsage with
    | some u => (run.events ++ [usageChunk u], none)
    | none => (run.events, none)

/-! ## The single-shot path -/

/-- Message object of a non-streaming response choice. -/
structure ResponseMessage where
  content : Option String
deriving Repr, DecidableEq

/-- One choice of a non-streaming response. -/
structure ResponseChoice where
  message : Option ResponseMessage
deriving Repr, DecidableEq

/-- A delivered non-streaming response body: the optional in-band `error`
property and the `choices` array. -/
structure ChatResponse where
  error : Option ErrObj := none
  choices : List ResponseChoice := []
deriving Repr, DecidableEq

/-- Embedding of `CometAPIHandler.completePrompt` downstream of the
transport: an in-band error raises `` `CometAPI Error ${code}: ${message}` ``
directly; otherwise the first choice's content is returned, with every
falsy content collapsing to the empty string. -/
def completePrompt (response : ChatResponse) : Except String String :=
  match response.error with
  | some e => .error (inBandErrorMessage e)
  | none =>
    .ok (match (response.choices.head?).bind (fun c => c.message.bind fun m => m.content) with
         | some s => if s == "" then "" else s
         | none => "")

/-! ## Request construction -/

/-- One OpenAI-format chat message (the translated history is produced by
the external `convertToOpenAiMessages` collaborator and taken here as
input). -/
structure OpenAiMessage where
  role : String
  content : String
deriving Repr, DecidableEq

/-- The completion request body as serialized onto the wire: `none` for
`max_tokens` means the field is absent from the body (JS `undefined` values
are dropped by serialization). -/
structure ChatCompletionCreateParams where
  model : String
  max_tokens : Option Int
  temperature : ℚ
  messages : List OpenAiMessage
  stream : Bool
  stream_options_include_usage : Option Bool
deriving Repr, DecidableEq

/-- Embedding of the `completionParams` object built by `createMessage`
(lines 72-79): `max_tokens` is spread in only when
`maxTokens && maxTokens > 0`, the system prompt is prepended as a role-tagged
entry, and usage reporting is requested. -/
def buildStreamParams (modelId : String) (maxTokens : Option Int) (temperature : ℚ)
    (systemPrompt : String) (converted : List OpenAiMessage) :
    ChatCompletionCreateParams :=
  { model := modelId
    max_tokens :=
      match maxTokens with
      | some m => if ¬ m = 0 ∧ m > 0 then some m else none
      | none => none
    temperature := temperature
    messages := { role := "system", content := systemPrompt } :: converted
    stream := true
    stream_options_include_usage := some true }

/-- Embedding of the `completionParams` object built by `completePrompt`
(lines 148-154): `max_tokens` is passed through unconditionally. -/
def buildCompletePromptParams (modelId : String) (maxTokens : Option Int)
    (temperature : ℚ) (p : String) : ChatCompletionCreateParams :=
  { model := modelId
    max_tokens := maxTokens
    temperature := temperature
    messages := [{ role := "user", content := p }]
    stream := false
    stream_options_include_usage := none }

/-- Resolved per-request parameters. -/
structure ModelParams where
  maxTokens : Option Int
  temperature : ℚ
deriving Repr, DecidableEq

/-- Modelled from the spec: the model-parameter derivation collaborator
`getModelParams` (`src/api/transform/model-params`, not part of this
repository): `(format, modelId, modelInfo, settings) -> {maxTokens,
temperature, ...}`, with `temperature` always present, default 0 unless
caller configuration overrides it, and `maxTokens` derived from the caller
override or the resolved model's metadata. -/
def getModelParams (settingsTemperature : Option ℚ) (settingsMaxTokens : Option Int)
    (info : ModelInfo) : ModelParams :=
  { maxTokens := match settingsMaxTokens with
                 | some n => some n
                 | none => info.maxTokens
    temperature := settingsTemperature.getD 0 }

/-! ## Characterization helpers for the streaming theorems -/

/-- The `Text` events a clean chunk list produces: one per chunk carrying a
truthy text delta, in arrival order. -/
def chunkTexts (chunks : List Chunk) : List ApiStreamChunk :=
  chunks.filterMap fun c =>
    match chunkTextDelta c with
    | some s => if s == "" then none else some (ApiStreamChunk.text s)
    | none => none

/-- The last usage payload of a chunk list, starting from `last` (each
usage-bearing chunk overwrites the previous record). -/
def lastUsageFrom (chunks : List Chunk) (last : Option CompletionUsage) :
    Option CompletionUsage :=
  chunks.foldl (fun acc c => match c.usage with | some u => some u | none => acc) last

/-- The terminal event list: one usage event when a record was captured,
nothing otherwise. -/
def usageTailEvents : Option CompletionUsage → List ApiStreamChunk
  | some u => [usageChunk u]
  | none => []

/-! ## Concrete inputs used by individual claims -/

/-- The spec's streaming example: a chunk carrying `"A"`, then a chunk
carrying `"B"` together with `usage {prompt_tokens:10, completion_tokens:20}`. -/
def c1Chunks : List Chunk :=
  [ { choices := [{ delta := some { content := some "A" } }] },
    { choices := [{ delta := some { content := some "B" } }],
      usage := some { prompt_tokens := some 10, completion_tokens := some 20 } } ]

/-- The spec's in-band error chunk `{error:{message:"API Error", code:500}}`. -/
def c2Chunk : Chunk :=
  { error := some { message := some "API Error", code := some 500 } }

/-- A single-shot response body carrying the same in-band error. -/
def c2Resp : ChatResponse :=
  { error := some { message := some "API Error", code := some 500 } }

/-- A remote body listing the static default identifier, to exercise the
merge precedence. -/
def c4Body : Json :=
  Json.obj [("data", Json.arr [Json.obj [("id", Json.str "claude-3-5-sonnet-20241022")]])]

/-- The validated form of `c4Body`. -/
def c4Parsed : ModelsResponse :=
  { data := [{ id := "claude-3-5-sonnet-20241022", object := none, created := none,
               owned_by := none, name := none, description := none,
               context_length := none, max_tokens := none, architecture := none,
               pricing := none }],
    success := none }

/-- The entry synthesized from `c4Body`'s only descriptor; note it differs
from the static entry for the same identifier (no `maxTokens`, no prices). -/
def c4Remote : ModelInfo :=
  { maxTokens := none
    contextWindow := 200000
    supportsImages := true
    supportsPromptCache := false
    inputPrice := none
    outputPrice := none
    description := "Claude 3.5 Sonnet - Advanced reasoning and code generation" }

/-- A remote body listing a filtered identifier. -/
def c5Body : Json :=
  Json.obj [("data", Json.arr [Json.obj [("id", Json.str "dall-e-3")]])]

/-- The spec's cost example:
`usage {cost: 0.5, cost_details:{upstream_inference_cost: 0.2}}`. -/
def c7Usage : CompletionUsage :=
  { cost := some 0.5, cost_details := some { upstream_inference_cost := some 0.2 } }

/-- A caught error with a non-rate-limit code. -/
def c8PlainError : JsError :=
  { code := some 500, message := some "boom" }

/-- A caught rate-limit error whose nested raw payload parses and carries
`error.details[0].retryDelay = "30s"`. -/
def c8RetryError : JsError :=
  { code := some 429
    message := some "Too many requests"
    rawParsed := some (Json.obj [("error", Json.obj [("details",
      Json.arr [Json.obj [("retryDelay", Json.str "30s")]])])]) }

/-- A caught rate-limit error whose nested raw payload is unavailable (the
parse threw and was swallowed). -/
def c8GenericError : JsError :=
  { code := some 429, message := some "Too many requests" }

/-- In-band error chunk used by the double-wrapping claim. -/
def c10Chunk : Chunk :=
  { error := some { message := some "API Error", code := some 500 } }

/-! ## Record lemmas -/

theorem lookup_cons (k : String) (p : String × ModelInfo) (rest : ModelRec) :
    List.lookup k (p :: rest) = if k = p.1 then some p.2 else List.lookup k rest := by
  rcases p with ⟨a, b⟩
  by_cases h : k = a
  · simp [List.lookup, h]
  · simp [List.lookup, beq_eq_false_iff_ne.mpr h, h]

theorem any_key_iff (r : ModelRec) (k : String) :
    (r.any fun p => p.1 = k) = true ↔ k ∈ recordKeys r := by
  simp only [recordKeys, List.any_eq_true, List.mem_map, decide_eq_true_eq]

theorem lookup_eq_none_of_not_mem_keys (r : ModelRec) (k : String)
    (h : k ∉ recordKeys r) : r.lookup k = none := by
  induction r with
  | nil => rfl
  | cons p rest ih =>
    simp only [recordKeys, List.map_cons, List.mem_cons, not_or] at h
    rw [lookup_cons, if_neg h.1]
    exact ih (by simpa [recordKeys] using h.2)

theorem keys_map_set (r : ModelRec) (k : String) (v : ModelInfo) :
    recordKeys (r.map fun p => if p.1 = k then (k, v) else p) = recordKeys r := by
  induction r with
  | nil => rfl
  | cons p rest ih =>
    by_cases hp : p.1 = k <;> simp [recordKeys, hp] <;>
      simpa [recordKeys] using ih

theorem lookup_map_set_self (r : ModelRec) (k : String) (v : ModelInfo)
    (h : k ∈ recordKeys r) :
    (r.map fun p => if p.1 = k then (k, v) else p).lookup k = some v := by
  induction r with
  | nil => simp [recordKeys] at h
  | cons p rest ih =>
    rcases p with ⟨a, b⟩
    simp only [List.map_cons]
    by_cases ha : a = k
    · have : ((a, b).1 = k) := ha
      rw [if_pos this, lookup_cons, if_pos rfl]
    · have hcond : ¬ ((a, b).1 = k) := ha
      rw [if_neg hcond, lookup_cons, if_neg (fun hk => ha hk.symm)]
      refine ih ?_
      simp only [recordKeys, List.map_cons, List.mem_cons] at h
      rcases h with h | h
      · exact absurd h.symm ha
      · simpa [recordKeys] using h

theorem lookup_map_set_ne (r : ModelRec) (k : String) (v : ModelInfo) (q : String)
    (h : q ≠ k) :
    (r.map fun p => if p.1 = k then (k, v) else p).lookup q = r.lookup q := by
  induction r with
  | nil => rfl
  | cons p rest ih =>
    rcases p with ⟨a, b⟩
    simp only [List.map_cons]
    by_cases ha : a = k
    · have : ((a, b).1 = k) := ha
      rw [if_pos this, lookup_cons, lookup_cons, if_neg h,
        if_neg (fun hq : q = (a, b).1 => h (ha ▸ hq))]
      exact ih
    · have hcond : ¬ ((a, b).1 = k) := ha
      rw [if_neg hcond, lookup_cons, lookup_cons]
      by_cases hq : q = (a, b).1
      · rw [if_pos hq, if_pos hq]
      · rw [if_neg hq, if_neg hq]
        exact ih

theorem lookup_append_single_self (r : ModelRec) (k : String) (v : ModelInfo)
    (h : k ∉ recordKeys r) : List.lookup k (r ++ [(k, v)]) = some v := by
  induction r with
  | nil => simp [lookup_cons]
  | cons p rest ih =>
    simp only [recordKeys, List.map_cons, List.mem_cons, not_or] at h
    rw [List.cons_append, lookup_cons, if_neg h.1]
    exact ih (by simpa [recordKeys] using h.2)

theorem lookup_append_single_ne (r : ModelRec) (k : String) (v : ModelInfo) (q : String)
    (h : q ≠ k) : List.lookup q (r ++ [(k, v)]) = r.lookup q := by
  induction r with
  | nil => simp [lookup_cons, h]
  | cons p rest ih =>
    rw [List.cons_append, lookup_cons, lookup_cons]
    by_cases hq : q = p.1
    · rw [if_pos hq, if_pos hq]
    · rw [if_neg hq, if_neg hq]
      exact ih

theorem mem_keys_recordSet_iff (r : ModelRec) (k : String) (v : ModelInfo) (q : String) :
    q ∈ recordKeys (recordSet r k v) ↔ q = k ∨ q ∈ recordKeys r := by
  unfold recordSet
  by_cases hany : r.any fun p => p.1 = k
  · rw [if_pos hany, keys_map_set]
    have hk : k ∈ recordKeys r := (any_key_iff r k).mp hany
    constructor
    · exact Or.inr
    · rintro (rfl | hq)
      · exact hk
      · exact hq
  · rw [if_neg hany]
    simp [recordKeys, or_comm]

theorem lookup_recordSet_self (r : ModelRec) (k : String) (v : ModelInfo) :
    (recordSet r k v).lookup k = some v := by
  unfold recordSet
  by_cases hany : r.any fun p => p.1 = k
  · rw [if_pos hany]
    exact lookup_map_set_self r k v ((any_key_iff r k).mp hany)
  · rw [if_neg hany]
    refine lookup_append_single_self r k v (fun hk => hany ?_)
    exact (any_key_iff r k).mpr hk

theorem lookup_recordSet_ne (r : ModelRec) (k : String) (v : ModelInfo) (q : String)
    (h : q ≠ k) : (recordSet r k v).lookup q = r.lookup q := by
  unfold recordSet
  by_cases hany : r.any fun p => p.1 = k
  · rw [if_pos hany]
    exact lookup_map_set_ne r k v q h
  · rw [if_neg hany]
    exact lookup_append_single_ne r k v q h

theorem keys_recordSet_nodup (r : ModelRec) (k : String) (v : ModelInfo)
    (h : (recordKeys r).Nodup) : (recordKeys (recordSet r k v)).Nodup := by
  unfold recordSet
  by_cases hany : r.any fun p => p.1 = k
  · rw [if_pos hany, keys_map_set]; exact h
  · rw [if_neg hany]
    have hk : k ∉ recordKeys r := fun hk => hany ((any_key_iff r k).mpr hk)
    simp only [recordKeys, List.map_append]
    exact List.Nodup.append h (List.nodup_singleton k)
      (by simpa [List.disjoint_singleton, recordKeys] using hk)

theorem lookup_spread_not_mem (b : ModelRec) : ∀ (a : ModelRec) (k : String),
    k ∉ recordKeys b → (recordSpread a b).lookup k = a.lookup k := by
  induction b with
  | nil => intro a k _; rfl
  | cons p rest ih =>
    intro a k hk
    simp only [recordKeys, List.map_cons, List.mem_cons, not_or] at hk
    show (recordSpread (recordSet a p.1 p.2) rest).lookup k = _
    rw [ih _ _ (by simpa [recordKeys] using hk.2)]
    exact lookup_recordSet_ne _ _ _ _ hk.1

theorem lookup_spread_right (b : ModelRec) : ∀ (a : ModelRec) (k : String) (v : ModelInfo),
    (recordKeys b).Nodup → b.lookup k = some v → (recordSpread a b).lookup k = some v := by
  induction b with
  | nil => intro a k v _ h; cases h
  | cons p rest ih =>
    intro a k v hnd h
    simp only [recordKeys, List.map_cons, List.nodup_cons] at hnd
    show (recordSpread (recordSet a p.1 p.2) rest).lookup k = some v
    rw [lookup_cons] at h
    by_cases hk : k = p.1
    · rw [if_pos hk] at h
      rw [lookup_spread_not_mem rest _ k (by simpa [recordKeys, hk] using hnd.1), hk]
      rw [lookup_recordSet_self]
      exact h ▸ rfl
    · rw [if_neg hk] at h
      exact ih _ _ _ hnd.2 h

theorem mem_keys_spread_left (b : ModelRec) : ∀ (a : ModelRec) (k : String),
    k ∈ recordKeys a → k ∈ recordKeys (recordSpread a b) := by
  induction b with
  | nil => intro a k h; exact h
  | cons p rest ih =>
    intro a k h
    exact ih _ _ ((mem_keys_recordSet_iff _ _ _ _).mpr (Or.inr h))

theorem not_mem_keys_spread (b : ModelRec) : ∀ (a : ModelRec) (k : String),
    k ∉ recordKeys a → k ∉ recordKeys b → k ∉ recordKeys (recordSpread a b) := by
  induction b with
  | nil => intro a k ha _; exact ha
  | cons p rest ih =>
    intro a k ha hb
    simp only [recordKeys, List.map_cons, List.mem_cons, not_or] at hb
    refine ih _ _ (fun hmem => ?_) (by simpa [recordKeys] using hb.2)
    rcases (mem_keys_recordSet_iff _ _ _ _).mp hmem with h | h
    · exact hb.1 h
    · exact ha h

theorem buildRemote_fold_nodup (ds : List RawModel) : ∀ acc : ModelRec,
    (recordKeys acc).Nodup →
    (recordKeys (ds.foldl
      (fun acc m =>
        if isTextGenerationModel m.id then recordSet acc m.id (synthesizeModelInfo m)
        else acc) acc)).Nodup := by
  induction ds with
  | nil => intro acc h; exact h
  | cons m rest ih =>
    intro acc h
    simp only [List.foldl_cons]
    by_cases hm : isTextGenerationModel m.id
    · rw [if_pos hm]; exact ih _ (keys_recordSet_nodup _ _ _ h)
    · rw [if_neg hm]; exact ih _ h

theorem buildRemote_fold_not_mem (ds : List RawModel) : ∀ (acc : ModelRec) (k : String),
    isTextGenerationModel k = false → k ∉ recordKeys acc →
    k ∉ recordKeys (ds.foldl
      (fun acc m =>
        if isTextGenerationModel m.id then recordSet acc m.id (synthesizeModelInfo m)
        else acc) acc) := by
  induction ds with
  | nil => intro acc k _ h; exact h
  | cons m rest ih =>
    intro acc k hk h
    simp only [List.foldl_cons]
    by_cases hm : isTextGenerationModel m.id
    · rw [if_pos hm]
      refine ih _ _ hk (fun hmem => ?_)
      rcases (mem_keys_recordSet_iff _ _ _ _).mp hmem with rfl | hmem
      · rw [hm] at hk; cases hk
      · exact h hmem
    · rw [if_neg hm]; exact ih _ _ hk h

theorem buildRemoteModels_keys_nodup (ds : List RawModel) :
    (recordKeys (buildRemoteModels ds)).Nodup :=
  buildRemote_fold_nodup ds [] List.nodup_nil

theorem buildRemoteModels_not_mem (ds : List RawModel) (k : String)
    (hk : isTextGenerationModel k = false) : k ∉ recordKeys (buildRemoteModels ds) :=
  buildRemote_fold_not_mem ds [] k hk (by simp [recordKeys])

theorem static_keys_textgen :
    ∀ k ∈ recordKeys cometApiModels, isTextGenerationModel k = true := by decide

/-! ## Claim theorems: the catalog resolver -/

/-- C3: the catalog resolver never raises (the embedding is a total
function), and on every failing execution — transport failure, non-2xx
status, or a body rejected by the schema — it returns exactly the static
table. -/
theorem getCometAPIModels_failure_fallback (apiKey : Option String)
    (outcome : FetchOutcome) (h : fetchFailed outcome = true) :
    getCometAPIModels apiKey outcome = cometApiModels := by
  unfold getCometAPIModels
  cases hjt : jsTruthyKey apiKey
  · simp
  · simp only [Bool.not_true, Bool.false_eq_true, if_false]
    cases outcome with
    | networkError => rfl
    | response ok body =>
      cases ok with
      | false => simp
      | true =>
        simp only [fetchFailed, Bool.not_true, Bool.false_or, Option.isNone_iff_eq_none] at h
        simp [h]

/-- Witness for C3 at a malformed body (missing `data` field). -/
theorem getCometAPIModels_failure_fallback_witness :
    fetchFailed (FetchOutcome.response true (Json.obj [])) = true ∧
    getCometAPIModels (some "key") (FetchOutcome.response true (Json.obj []))
      = cometApiModels :=
  ⟨by decide, getCometAPIModels_failure_fallback _ _ (by decide)⟩

/-- C6: with no API credential the resolver returns exactly the static
table; the result does not depend on the fetch outcome at all, which is the
embedding of "without attempting any remote fetch", and no error is raised
(the embedding is total). -/
theorem getCometAPIModels_no_key_static (outcome : FetchOutcome) :
    getCometAPIModels none outcome = cometApiModels := rfl

/-- C4: merge precedence.  (1) Every static-table key is present in the
resolved catalog for every outcome.  (2) On a successfully fetched and
validated body, an identifier present in both the static table and the
surviving synthesized remote entries resolves to the remote-derived entry.
(3) When the fetch fails entirely, the static table is returned
unchanged. -/
theorem getCometAPIModels_merge_precedence :
    (∀ (apiKey : Option String) (outcome : FetchOutcome) (k : String),
        k ∈ recordKeys cometApiModels →
        k ∈ recordKeys (getCometAPIModels apiKey outcome))
    ∧ (∀ (key : String) (body : Json) (parsed : ModelsResponse) (k : String) (v : ModelInfo),
        ¬ key = "" → parseModelsResponse body = some parsed →
        k ∈ recordKeys cometApiModels →
        (buildRemoteModels parsed.data).lookup k = some v →
        (getCometAPIModels (some key) (FetchOutcome.response true body)).lookup k = some v)
    ∧ (∀ apiKey : Option String,
        getCometAPIModels apiKey FetchOutcome.networkError = cometApiModels) := by
  refine ⟨?_, ?_, ?_⟩
  · intro apiKey outcome k hk
    unfold getCometAPIModels
    cases hjt : jsTruthyKey apiKey
    · simpa using hk
    · simp only [Bool.not_true, Bool.false_eq_true, if_false]
      cases outcome with
      | networkError => exact hk
      | response ok body =>
        cases ok with
        | false => simpa using hk
        | true =>
          cases hp : parseModelsResponse body with
          | none => simpa [hp] using hk
          | some parsed =>
            simpa [hp] using mem_keys_spread_left _ _ _ hk
  · intro key body parsed k v hkey hp _ hv
    have hjt : jsTruthyKey (some key) = true := by
      simp [jsTruthyKey, hkey]
    unfold getCometAPIModels
    simp only [hjt, Bool.not_true, Bool.false_eq_true, if_false, Bool.not_false, if_true, hp]
    exact lookup_spread_right _ _ _ _ (buildRemoteModels_keys_nodup parsed.data) hv
  · intro apiKey
    unfold getCometAPIModels
    cases hjt : jsTruthyKey apiKey <;> simp

/-- Witness for C4: the remote body relists the static default identifier;
the resolved entry is the remote-derived `c4Remote` (which visibly differs
from the static entry: no `maxTokens`, no prices). -/
theorem getCometAPIModels_merge_precedence_witness :
    (¬ "key" = "")
    ∧ parseModelsResponse c4Body = some c4Parsed
    ∧ "claude-3-5-sonnet-20241022" ∈ recordKeys cometApiModels
    ∧ (buildRemoteModels c4Parsed.data).lookup "claude-3-5-sonnet-20241022" = some c4Remote
    ∧ (getCometAPIModels (some "key") (FetchOutcome.response true c4Body)).lookup
        "claude-3-5-sonnet-20241022" = some c4Remote :=
  ⟨by decide, by decide, by decide, by decide,
   getCometAPIModels_merge_precedence.2.1 "key" c4Body c4Parsed _ c4Remote
     (by decide) (by decide) (by decide) (by decide)⟩

/-- C5: a remote identifier rejected by the media-type filter (filtered
leading pattern or filtered substring, compared case-insensitively on the
lower-cased identifier) is never present in the resolved catalog, whatever
the credential and fetch outcome. -/
theorem filtered_model_absent (id : String) (h : isTextGenerationModel id = false) :
    ∀ (apiKey : Option String) (outcome : FetchOutcome),
      (getCometAPIModels apiKey outcome).lookup id = none := by
  have hstatic : id ∉ recordKeys cometApiModels := by
    intro hmem
    have := static_keys_textgen id hmem
    rw [h] at this
    cases this
  intro apiKey outcome
  unfold getCometAPIModels
  cases hjt : jsTruthyKey apiKey
  · simpa using lookup_eq_none_of_not_mem_keys _ _ hstatic
  · simp only [Bool.not_true, Bool.false_eq_true, if_false]
    cases outcome with
    | networkError => exact lookup_eq_none_of_not_mem_keys _ _ hstatic
    | response ok body =>
      cases ok with
      | false => simpa using lookup_eq_none_of_not_mem_keys _ _ hstatic
      | true =>
        cases hp : parseModelsResponse body with
        | none => simpa [hp] using lookup_eq_none_of_not_mem_keys _ _ hstatic
        | some parsed =>
          simpa [hp] using lookup_eq_none_of_not_mem_keys _ _
            (not_mem_keys_spread _ _ _ hstatic (buildRemoteModels_not_mem _ _ h))

/-- Witness for C5 at the spec's example `"dall-e-3"`, with the remote body
listing exactly that identifier. -/
theorem filtered_model_absent_witness :
    isTextGenerationModel "dall-e-3" = false ∧
    (getCometAPIModels (some "key") (FetchOutcome.response true c5Body)).lookup
      "dall-e-3" = none :=
  ⟨by decide, filtered_model_absent "dall-e-3" (by decide) _ _⟩

/-! ## Stream lemmas -/

theorem streamLoop_clean (chunks : List Chunk) : ∀ last : Option CompletionUsage,
    (∀ c ∈ chunks, c.error = none) →
    streamLoop chunks last =
      { events := chunkTexts chunks, lastUsage := lastUsageFrom chunks last,
        inBandError := none } := by
  induction chunks with
  | nil => intro last _; rfl
  | cons c cs ih =>
    intro last h
    have hc : c.error = none := h c (List.mem_cons_self c cs)
    have hcs : ∀ x ∈ cs, x.error = none := fun x hx => h x (List.mem_cons_of_mem c hx)
    show streamLoop (c :: cs) last = _
    simp only [streamLoop, hc]
    rw [ih _ hcs]
    cases hd : chunkTextDelta c with
    | none =>
      simp [chunkTexts, List.filterMap_cons, hd, lastUsageFrom]
    | some s =>
      cases hs : s == ""
      · have hs2 : ¬ s = "" := by simpa using hs
        simp [chunkTexts, List.filterMap_cons, hd, hs2, lastUsageFrom]
      · have hs2 : s = "" := by simpa using hs
        simp [chunkTexts, List.filterMap_cons, hd, hs2, lastUsageFrom]

theorem streamLoop_inband (pre : List Chunk) :
    ∀ (last : Option CompletionUsage) (ec : Chunk) (post : List Chunk) (e : ErrObj),
    (∀ c ∈ pre, c.error = none) → ec.error = some e →
    streamLoop (pre ++ ec :: post) last =
      { events := chunkTexts pre, lastUsage := lastUsageFrom pre last,
        inBandError := some e } := by
  induction pre with
  | nil =>
    intro last ec post e _ he
    show streamLoop (ec :: post) last = _
    simp only [streamLoop, he]
    rfl
  | cons c cs ih =>
    intro last ec post e h he
    have hc : c.error = none := h c (List.mem_cons_self c cs)
    have hcs : ∀ x ∈ cs, x.error = none := fun x hx => h x (List.mem_cons_of_mem c hx)
    show streamLoop (c :: (cs ++ ec :: post)) last = _
    simp only [streamLoop, hc]
    rw [ih _ ec post e hcs he]
    cases hd : chunkTextDelta c with
    | none =>
      simp [chunkTexts, List.filterMap_cons, hd, lastUsageFrom]
    | some s =>
      cases hs : s == ""
      · have hs2 : ¬ s = "" := by simpa using hs
        simp [chunkTexts, List.filterMap_cons, hd, hs2, lastUsageFrom]
      · have hs2 : s = "" := by simpa using hs
        simp [chunkTexts, List.filterMap_cons, hd, hs2, lastUsageFrom]

theorem inBandErrorMessage_ne_empty (e : ErrObj) : (inBandErrorMessage e == "") = false := by
  refine beq_eq_false_iff_ne.mpr fun h => ?_
  have hd : (inBandErrorMessage e).data = [] := congrArg String.data h
  rw [inBandErrorMessage] at hd
  simp only [String.data_append, List.append_eq_nil] at hd
  have : ("CometAPI Error ".data : List Char) = [] := hd.1.1.1
  simp at this

theorem wrap_inband_readable (e : ErrObj) :
    makeCometAPIErrorReadable (jsErrorOfThrown (inBandErrorMessage e)) =
      "CometAPI Error: " ++ inBandErrorMessage e := by
  rw [makeCometAPIErrorReadable, if_pos (by simp [jsErrorOfThrown])]
  simp [jsMessageOr, jsErrorOfThrown, inBandErrorMessage_ne_empty e]

theorem createMessage_clean (chunks : List Chunk) (h : ∀ c ∈ chunks, c.error = none) :
    createMessage chunks =
      (chunkTexts chunks ++ usageTailEvents (lastUsageFrom chunks none), none) := by
  unfold createMessage
  rw [streamLoop_clean chunks none h]
  cases hl : lastUsageFrom chunks none <;> simp [usageTailEvents]

theorem createMessage_inband (pre post : List Chunk) (ec : Chunk) (e : ErrObj)
    (hpre : ∀ c ∈ pre, c.error = none) (he : ec.error = some e) :
    createMessage (pre ++ ec :: post) =
      (chunkTexts pre, some ("CometAPI Error: " ++ inBandErrorMessage e)) := by
  unfold createMessage
  rw [streamLoop_inband pre none ec post e hpre he]
  simp [wrap_inband_readable]

theorem createMessage_inband_full (pre post : List Chunk) (ec : Chunk)
    (code : Int) (msg : String)
    (hpre : ∀ c ∈ pre, c.error = none)
    (he : ec.error = some { message := some msg, code := some code }) :
    createMessage (pre ++ ec :: post) =
      (chunkTexts pre,
       some ("CometAPI Error: CometAPI Error " ++ toString code ++ ": " ++ msg)) := by
  rw [createMessage_inband pre post ec _ hpre he]
  refine congrArg (fun m => (chunkTexts pre, some m)) ?_
  show "CometAPI Error: " ++ inBandErrorMessage { message := some msg, code := some code } = _
  simp only [inBandErrorMessage, jsTemplateInt, jsTemplateStr]
  simp only [← String.append_assoc]
  rw [show "CometAPI Error: " ++ "CometAPI Error " = "CometAPI Error: CometAPI Error "
    from by decide]

/-! ## Claim theorems: the stream normalizer -/

/-- C1: for every chunk sequence free of in-band errors, `createMessage`
produces exactly the `Text` events of the chunks carrying a truthy text
delta, in arrival order, followed by one terminal `Usage` event when a
usage payload was captured and by nothing otherwise; every element of that
prefix is a `Text` event; and the spec's concrete two-chunk example yields
exactly `[Text "A", Text "B", Usage 10 20 - - 0]`. -/
theorem createMessage_stream_events :
    (∀ chunks : List Chunk, (∀ c ∈ chunks, c.error = none) →
        createMessage chunks =
          (chunkTexts chunks ++ usageTailEvents (lastUsageFrom chunks none), none))
    ∧ (∀ (chunks : List Chunk) (ev : ApiStreamChunk), ev ∈ chunkTexts chunks →
        ∃ s, ev = ApiStreamChunk.text s)
    ∧ createMessage c1Chunks =
        ([ApiStreamChunk.text "A", ApiStreamChunk.text "B",
          ApiStreamChunk.usage 10 20 none none 0], none) := by
  refine ⟨createMessage_clean, ?_, ?_⟩
  · intro chunks ev hev
    simp only [chunkTexts, List.mem_filterMap] at hev
    rcases hev with ⟨c, _, hc⟩
    cases hd : chunkTextDelta c with
    | none => rw [hd] at hc; cases hc
    | some s =>
      rw [hd] at hc
      cases hs : s == ""
      · simp only [hs, Bool.false_eq_true, if_false, Option.some.injEq] at hc
        exact ⟨s, hc.symm⟩
      · simp [hs] at hc
  · have h0 : createMessage c1Chunks =
        ([ApiStreamChunk.text "A", ApiStreamChunk.text "B",
          ApiStreamChunk.usage 10 20 none none ((0 : ℚ) + 0)], none) := rfl
    rw [h0]
    norm_num

/-- Witness for C1 at the spec's two-chunk example. -/
theorem createMessage_stream_events_witness :
    (∀ c ∈ c1Chunks, c.error = none) ∧
    createMessage c1Chunks =
      (chunkTexts c1Chunks ++ usageTailEvents (lastUsageFrom c1Chunks none), none) :=
  ⟨by decide, createMessage_stream_events.1 c1Chunks (by decide)⟩

/-- C2: an in-band error object delivered inside a successful transport
payload is raised on both paths with a message containing the provider's
code and message; the streaming loop halts immediately (only the `Text`
events of the clean prefix are emitted, nothing from the error chunk on);
when the error chunk is first, no `Text` event precedes the raise; and the
single-shot path raises a message containing the same code and message. -/
theorem inband_error_surfaced :
    (∀ (pre post : List Chunk) (ec : Chunk) (code : Int) (msg : String),
        (∀ c ∈ pre, c.error = none) →
        ec.error = some { message := some msg, code := some code } →
        ∃ u v w : String,
          createMessage (pre ++ ec :: post) =
            (chunkTexts pre, some (u ++ toString code ++ v ++ msg ++ w)))
    ∧ (∀ (post : List Chunk) (ec : Chunk) (code : Int) (msg : String),
        ec.error = some { message := some msg, code := some code } →
        (createMessage (ec :: post)).1 = [])
    ∧ (∀ (response : ChatResponse) (code : Int) (msg : String),
        response.error = some { message := some msg, code := some code } →
        ∃ u v w : String,
          completePrompt response = .error (u ++ toString code ++ v ++ msg ++ w)) := by
  refine ⟨?_, ?_, ?_⟩
  · intro pre post ec code msg hpre he
    refine ⟨"CometAPI Error: CometAPI Error ", ": ", "", ?_⟩
    rw [createMessage_inband_full pre post ec code msg hpre he]
    simp [String.append_empty]
  · intro post ec code msg he
    have h := createMessage_inband_full [] post ec code msg (by intro c hc; cases hc) he
    rw [List.nil_append] at h
    rw [h]
    rfl
  · intro response code msg he
    refine ⟨"CometAPI Error ", ": ", "", ?_⟩
    unfold completePrompt
    rw [he]
    simp only [inBandErrorMessage, jsTemplateInt, jsTemplateStr, String.append_empty]

/-- Witness for C2: the spec's error chunk
`{error:{message:"API Error", code:500}}` as the very first item, and the
same error in a single-shot response body. -/
theorem inband_error_surfaced_witness :
    c2Chunk.error = some { message := some "API Error", code := some 500 }
    ∧ (∃ u v w : String,
        createMessage ([] ++ c2Chunk :: []) =
          (chunkTexts [], some (u ++ toString (500 : Int) ++ v ++ "API Error" ++ w)))
    ∧ (createMessage (c2Chunk :: [])).1 = []
    ∧ (∃ u v w : String,
        completePrompt c2Resp = .error (u ++ toString (500 : Int) ++ v ++ "API Error" ++ w)) :=
  ⟨rfl,
   inband_error_surfaced.1 [] [] c2Chunk 500 "API Error" (by decide) rfl,
   inband_error_surfaced.2.1 [] c2Chunk 500 "API Error" rfl,
   inband_error_surfaced.2.2 c2Resp 500 "API Error" rfl⟩

/-- C10: the error surfaced for an in-band streaming error chunk is exactly
the double-prefixed `"CometAPI Error: CometAPI Error <code>: <message>"`:
the in-band throw happens inside the iteration `try`, is re-caught by the
transport `catch`, and goes through `makeCometAPIErrorReadable`, whose
non-rate-limit branch applies because the wrapping `Error` carries no
numeric `code` property. -/
theorem inband_error_double_wrapped (pre post : List Chunk) (ec : Chunk)
    (code : Int) (msg : String)
    (hpre : ∀ c ∈ pre, c.error = none)
    (he : ec.error = some { message := some msg, code := some code }) :
    (createMessage (pre ++ ec :: post)).2 =
      some ("CometAPI Error: CometAPI Error " ++ toString code ++ ": " ++ msg) := by
  rw [createMessage_inband_full pre post ec code msg hpre he]

/-- Witness for C10 at the test suite's error chunk (`code 500`,
`"API Error"`): the surfaced message is
`"CometAPI Error: CometAPI Error 500: API Error"`. -/
theorem inband_error_double_wrapped_witness :
    c10Chunk.error = some { message := some "API Error", code := some 500 }
    ∧ (createMessage ([] ++ c10Chunk :: [])).2 =
        some ("CometAPI Error: CometAPI Error " ++ toString (500 : Int) ++ ": " ++ "API Error") :=
  ⟨rfl, inband_error_double_wrapped [] [] c10Chunk 500 "API Error" (by decide) rfl⟩

/-! ## Claim theorems: cost, error transform, request construction -/

theorem jsNumOr_zero_getD (o : Option ℚ) : jsNumOr o 0 = o.getD 0 := by
  cases o with
  | none => rfl
  | some q =>
    by_cases hq : q = 0
    · simp [jsNumOr, hq]
    · simp [jsNumOr, hq]

/-- C7: the total cost of the terminal usage event is
`cost_details.upstream_inference_cost` (default 0) plus `cost` (default 0);
the spec's example `{cost: 0.5, cost_details:{upstream_inference_cost: 0.2}}`
yields `0.7`; and the terminal usage event carries exactly this total. -/
theorem getTotalCost_formula :
    (∀ u : CompletionUsage,
        getTotalCost u =
          (u.cost_details.bind fun d => d.upstream_inference_cost).getD 0 + u.cost.getD 0)
    ∧ getTotalCost c7Usage = 0.7
    ∧ (∀ u : CompletionUsage,
        usageChunk u =
          ApiStreamChunk.usage (jsIntOr u.prompt_tokens 0) (jsIntOr u.completion_tokens 0)
            (u.prompt_tokens_details.bind fun d => d.cached_tokens)
            (u.completion_tokens_details.bind fun d => d.reasoning_tokens)
            ((u.cost_details.bind fun d => d.upstream_inference_cost).getD 0
              + u.cost.getD 0)) := by
  have hform : ∀ u : CompletionUsage,
      getTotalCost u =
        (u.cost_details.bind fun d => d.upstream_inference_cost).getD 0 + u.cost.getD 0 := by
    intro u
    rw [getTotalCost, jsNumOr_zero_getD, jsNumOr_zero_getD]
  refine ⟨hform, ?_, ?_⟩
  · rw [hform]
    norm_num [c7Usage]
  · intro u
    rw [usageChunk, hform]

/-- C8: `makeCometAPIErrorReadable` is a total function of the caught error
(it never raises; every parse or property-access failure inside the source's
`try` is swallowed into the generic branch).  With a status code that is
neither 429 nor 418 it produces `"CometAPI Error: <message>"`; with 429/418
it produces the wait-duration message when a truthy
`error.details[].retryDelay` is found in the parsed raw payload, and
otherwise the generic rate-limit message followed by the original message;
witnessed on a payload carrying `retryDelay = "30s"` and on an unavailable
payload. -/
theorem makeCometAPIErrorReadable_cases :
    (∀ e : JsError, e.code ≠ some 429 → e.code ≠ some 418 →
        makeCometAPIErrorReadable e = "CometAPI Error: " ++ jsMessageOr e)
    ∧ (∀ (e : JsError) (r : String), (e.code = some 429 ∨ e.code = some 418) →
        extractRetryDelay e.rawParsed = some r →
        makeCometAPIErrorReadable e = "Rate limit exceeded, try again in " ++ r ++ ".")
    ∧ (∀ e : JsError, (e.code = some 429 ∨ e.code = some 418) →
        extractRetryDelay e.rawParsed = none →
        makeCometAPIErrorReadable e =
          "Rate limit exceeded, try again later.\n" ++ jsMessageOr e)
    ∧ makeCometAPIErrorReadable c8RetryError = "Rate limit exceeded, try again in 30s."
    ∧ makeCometAPIErrorReadable c8GenericError =
        "Rate limit exceeded, try again later.\nToo many requests" := by
  have hneg : ∀ e : JsError, (e.code = some 429 ∨ e.code = some 418) →
      ¬ (e.code ≠ some 429 ∧ e.code ≠ some 418) := by
    rintro e (h | h) hcon
    · exact hcon.1 h
    · exact hcon.2 h
  refine ⟨?_, ?_, ?_, by decide, by decide⟩
  · intro e h1 h2
    rw [makeCometAPIErrorReadable, if_pos ⟨h1, h2⟩]
  · intro e r hcode hr
    rw [makeCometAPIErrorReadable, if_neg (hneg e hcode), hr]
  · intro e hcode hr
    rw [makeCometAPIErrorReadable, if_neg (hneg e hcode), hr]

/-- Witness for C8: a 500-coded error takes the plain branch; the 429-coded
error with a parsed `retryDelay = "30s"` takes the wait-duration branch. -/
theorem makeCometAPIErrorReadable_cases_witness :
    (c8PlainError.code ≠ some 429) ∧ (c8PlainError.code ≠ some 418)
    ∧ makeCometAPIErrorReadable c8PlainError = "CometAPI Error: " ++ jsMessageOr c8PlainError
    ∧ (c8RetryError.code = some 429 ∨ c8RetryError.code = some 418)
    ∧ extractRetryDelay c8RetryError.rawParsed = some "30s"
    ∧ makeCometAPIErrorReadable c8RetryError =
        "Rate limit exceeded, try again in " ++ "30s" ++ "." :=
  ⟨by decide, by decide,
   makeCometAPIErrorReadable_cases.1 c8PlainError (by decide) (by decide),
   by decide, by decide,
   makeCometAPIErrorReadable_cases.2.1 c8RetryError "30s" (by decide) (by decide)⟩

/-- C9 counterexample: the claim states that for every outbound completion
request the `max_tokens` field is included only if the resolved `maxTokens`
is strictly positive, but the single-shot request builder passes the
resolved value through unconditionally: with resolved `maxTokens = 0` the
body carries `max_tokens = 0` although `0` is not strictly positive. -/
theorem max_tokens_included_counterexample :
    (buildCompletePromptParams "claude-3-5-sonnet-20241022" (some 0) 0 "hello").max_tokens
      = some 0
    ∧ ¬ ((0 : Int) > 0) :=
  ⟨rfl, by decide⟩

/-- C9 amended: the streaming request includes `max_tokens` exactly when the
resolved `maxTokens` is strictly positive; the single-shot request passes
the resolved `maxTokens` through unconditionally (absent only when it is
undefined); `temperature` is always included in both request bodies, and the
derived temperature defaults to 0 unless caller configuration overrides
it. -/
theorem request_params_construction :
    (∀ (modelId : String) (mt : Option Int) (t : ℚ) (sys : String)
        (msgs : List OpenAiMessage) (m : Int),
        (buildStreamParams modelId mt t sys msgs).max_tokens = some m ↔
          mt = some m ∧ 0 < m)
    ∧ (∀ (modelId : String) (mt : Option Int) (t : ℚ) (p : String),
        (buildCompletePromptParams modelId mt t p).max_tokens = mt)
    ∧ (∀ (modelId : String) (mt : Option Int) (t : ℚ) (sys : String)
        (msgs : List OpenAiMessage),
        (buildStreamParams modelId mt t sys msgs).temperature = t)
    ∧ (∀ (modelId : String) (mt : Option Int) (t : ℚ) (p : String),
        (buildCompletePromptParams modelId mt t p).temperature = t)
    ∧ (∀ (st : Option ℚ) (smt : Option Int) (info : ModelInfo),
        (getModelParams st smt info).temperature = st.getD 0) := by
  refine ⟨?_, fun _ _ _ _ => rfl, fun _ _ _ _ _ => rfl, fun _ _ _ _ => rfl,
    fun _ _ _ => rfl⟩
  intro modelId mt t sys msgs m
  cases mt with
  | none => simp [buildStreamParams]
  | some n =>
    show (if ¬ n = 0 ∧ n > 0 then some n else none) = some m ↔ some n = some m ∧ 0 < m
    by_cases hn : ¬ n = 0 ∧ n > 0
    · rw [if_pos hn]
      constructor
      · intro h
        have hnm : n = m := Option.some.inj h
        exact ⟨hnm ▸ rfl, hnm ▸ hn.2⟩
      · rintro ⟨hmt, _⟩
        exact hmt
    · rw [if_neg hn]
      constructor
      · intro h
        cases h
      · rintro ⟨hmt, hm⟩
        have hnm : n = m := Option.some.inj hmt
        exact absurd ⟨by omega, by omega⟩ hn

/-- Witness for C9's amended statement: with resolved `maxTokens = 8192` the
streaming body includes `max_tokens = 8192`. -/
theorem request_params_construction_witness :
    (some (8192 : Int) = some (8192 : Int) ∧ (0 : Int) < 8192)
    ∧ (buildStreamParams "claude-3-5-sonnet-20241022" (some 8192) 0 "sys" []).max_tokens
        = some 8192 :=
  ⟨⟨rfl, by decide⟩,
   (request_params_construction.1 "claude-3-5-sonnet-20241022" (some 8192) 0 "sys" []
      8192).mpr ⟨rfl, by decide⟩⟩

end CometAPI
